import Mathlib

/-!
Shallow embedding of `cps/metadata_provider/aladin.py` (the Aladin metadata
provider of calibre-web) and verification of its specified properties.

The provider scrapes two kinds of HTML pages (a search-results page and a
per-item detail page).  HTML documents are embedded as the projections the
code actually takes of them: for each XPath constant of the class, the list
of matching nodes.  A node (`Element`) carries its attribute map and its
first text child, which is everything the code reads.  Python operations
that can raise are embedded in the `Option` monad: `xs[0]` is `List.head?`,
and a record is `none` when the corresponding Python path returns `None`
or is dropped by the broad `except` handler.
-/

namespace Aladin

/-- An HTML element as the source uses it: its attribute map
(`element.attrib`) and its text content (`element.text`, which in lxml is
`None` when the element has no leading text child). -/
structure Element where
  attrib : List (String × String)
  text : Option String
  deriving Repr, DecidableEq

/-- Python `element.get(name)`: optional attribute lookup, `None` when the
attribute is absent. -/
def Element.get (e : Element) (k : String) : Option String :=
  (e.attrib.find? (fun p => p.1 = k)).map (fun p => p.2)

/-- Python `name in element.attrib`. -/
def Element.hasAttr (e : Element) (k : String) : Bool :=
  e.attrib.any (fun p => p.1 = k)

/-- `MetaSourceInfo` (from `cps.services.Metadata`): provenance of a record. -/
structure MetaSourceInfo where
  id : String
  description : String
  link : String
  deriving Repr, DecidableEq

/-- `MetaRecord` (from `cps.services.Metadata`), with the fields the Aladin
provider fills in.  Fields produced by `element.get("content")` are
`Option String` because Python's `.get` yields `None` for a missing
attribute and the code stores that value as-is. -/
structure MetaRecord where
  id : String
  title : Option String
  authors : List String
  url : String
  source : MetaSourceInfo
  cover : String
  description : Option String
  identifiers : List (String × Option String)
  publisher : String
  publishedDate : Option String
  rating : Nat
  deriving Repr, DecidableEq

/-- A detail page, projected through the class's XPath constants: for each
constant the list of nodes it matches.  The authors/publisher node is kept
as the fragment list produced by `itertext()`, the only way the code reads
it. -/
structure DetailPage where
  /-- nodes matching `TITLE_XPATH` (`//meta[(at)property='og:title']`) -/
  ogTitle : List Element
  /-- `itertext()` fragment lists of nodes matching `AUTHORS_AND_PUBLISHER_XPATH` -/
  sub2Title : List (List String)
  /-- nodes matching `COVER_XPATH` (`//meta[(at)property='og:image']`) -/
  ogImage : List Element
  /-- nodes matching `DESCRIPTION_XPATH` -/
  ogDescription : List Element
  /-- nodes matching `ISBN_XPATH` (`//meta[(at)property='books:isbn']`) -/
  booksIsbn : List Element
  /-- nodes matching `PUBLISHED_DATE_XPATH` (`//meta[(at)itemprop='datePublished']`) -/
  datePublished : List Element
  /-- nodes matching `RAITING10_XPATH` (the rating anchor) -/
  ratingAnchor : List Element
  deriving Repr, DecidableEq

/-! ### Class constants -/

def aladin_name : String := "Aladin"
def aladin_id : String := "aladin"
def MAX_ITEMS : Nat := 10
def DESCRIPTION : String := "aladin.co.kr"
def META_URL : String := "https://www.aladin.co.kr/"
def BOOK_URL : String := "https://www.aladin.co.kr/shop/wproduct.aspx"
def AUTHOR_END_MARK : String := "(지은이)"

/-- The whitespace characters Python's `str.strip()` removes (those that
occur in practice; `strip()` also removes rarer unicode spaces). -/
def pyIsSpace (c : Char) : Bool :=
  c = ' ' || c = '\t' || c = '\n' || c = '\r' || c = '\x0b' || c = '\x0c'

/-- Python `s.strip()`: drop leading and trailing whitespace. -/
def pyStrip (s : String) : String :=
  ⟨(((s.data.dropWhile pyIsSpace).reverse.dropWhile pyIsSpace).reverse)⟩

/-- Python `pat in s`: substring containment. -/
def strContains (s pat : String) : Bool :=
  s.data.tails.any (fun t => pat.data.isPrefixOf t)

/-- Python `x or y` where `x` is an optional string: `None` and `""` are
falsy, anything else is returned unchanged. -/
def pyOrStr (x : Option String) (y : String) : String :=
  match x with
  | none => y
  | some s => if s = "" then y else s

/-! ### `_parse_author_and_publisher` (lines 174-198)

The Python walks the fragment list with an index `i` in two phases.
Phase A (the first `while` loop) collects authors until a fragment whose
trimmed text contains `AUTHOR_END_MARK`; it leaves `i` one past that
marker fragment.  Phase B (the second `while` loop) advances `i` until a
fragment whose trimmed text equals the date string, then takes `sub[i-1]`
— the raw fragment immediately before the match, which is the marker
fragment itself when the match is the first fragment examined.  We embed
the two phases structurally: `authorPhase` returns the collected authors,
the raw marker fragment when one was found, and the remaining fragments;
`publisherPhase` walks the remainder carrying the raw previous fragment. -/

/-- Phase A of `_parse_author_and_publisher` (the first `while` loop):
returns `(authors, marker fragment if found — raw, fragments after it)`.
A fragment whose trimmed text is `""` or `","` is skipped; the walk stops
at (and excludes) the first fragment whose trimmed text contains
`AUTHOR_END_MARK`. -/
def authorPhase : List String → List String × Option String × List String
  | [] => ([], none, [])
  | a :: rest =>
    let author := pyStrip a
    if strContains author AUTHOR_END_MARK then
      ([], some a, rest)
    else
      let (as, m, r) := authorPhase rest
      ((if author = "," || author = "" then as else author :: as), m, r)

/-- Phase B of `_parse_author_and_publisher` (the second `while` loop plus
the final `if`): walks the fragments after the marker carrying the raw
previous fragment (`sub[i-1]`); on the first fragment whose trimmed text
equals `date_string` it returns that previous fragment, untrimmed; if the
sequence ends without a match the publisher is `""`. -/
def publisherPhase (date_string : String) : String → List String → String
  | _, [] => ""
  | prev, x :: rest =>
    if pyStrip x = date_string then prev else publisherPhase date_string x rest

/-- `Aladin._parse_author_and_publisher` (lines 174-198).  `none` embeds a
raised exception: the sub-title node list being empty (`[0]` raises), the
published-date node list being empty, or its `content` attribute missing
(`None.strip()` raises).  When Phase A never finds the marker, the Python
index is already `len(sub)` and Phase B returns `""` without running. -/
def parse_author_and_publisher (html : DetailPage) :
    Option (List String × String) := do
  let sub ← html.sub2Title.head?
  let scanned := authorPhase sub
  let dateElem ← html.datePublished.head?
  let dateContent ← dateElem.get "content"
  let date_string := pyStrip dateContent
  let publisher :=
    (scanned.2.1).elim "" (fun m => publisherPhase date_string m scanned.2.2)
  return (scanned.1, publisher)

/-! ### Rating (lines 151-155)

Line 152 of the source reads
`raiting_10 = float(html.xpath(self.RAITING10_XPATH))[0].text.strip()`:
the call `float(...)` is applied to the xpath *node list*, not to the
node's text, and Python's `float` raises `TypeError` on a list, whatever
its contents.  The inner `try` therefore always falls into its
`except Exception` handler and `raiting = 0` on every page. -/

/-- Python `float(...)` applied to a list of elements: raises `TypeError`
for every list. -/
def pyFloatOfNodeList (_ : List Element) : Option ℚ := none

/-- The inner `try` of `_fetch_book` (lines 151-153): the attempted rating
computation.  It fails at its first step on every input (see above); the
subscript, `.text`, `.strip()` and `int(raiting_10 // 2 + 0.5)` steps are
unreachable. -/
def raitingCalc (nodes : List Element) : Option Nat := do
  let _raiting_10 ← pyFloatOfNodeList nodes
  none

/-- `raiting` as `_fetch_book` computes it: the inner `try`'s result, with
the `except Exception` handler (lines 154-155) substituting 0. -/
def raitingOf (nodes : List Element) : Nat := (raitingCalc nodes).getD 0

/-- The 0-10 to 0-5 scaling the spec states for a rating value: an
embedding of the spec's formula `int(value/2 + 0.5)`, for comparison with
what the code computes. -/
def specRatingScale (value : ℚ) : ℤ := ⌊value / 2 + 1 / 2⌋

/-! ### `_get_description` and `_fetch_book` -/

/-- `Aladin._get_description` (lines 93-96): the outer `Option` is the
subscript on the node list (raises when no node matches), the inner one is
the attribute value (`None` when the `content` attribute is missing). -/
def get_description (html : DetailPage) : Option (Option String) := do
  let e ← html.ogDescription.head?
  return e.get "content"

/-- `Aladin._fetch_book` (lines 129-172), applied to the result of its
page fetch (`none` for `page?` embeds `_http_get` returning `None`,
line 136).  The broad `try`/`except` around field extraction is the
surrounding `Option` computation: any failing extraction step makes the
whole result `none` (the item is dropped, never a partial record). -/
def fetch_book (page? : Option DetailPage) (id generic_cover : String) :
    Option MetaRecord := do
  let html ← page?
  let url := BOOK_URL ++ "?ItemId=" ++ id
  let titleElem ← html.ogTitle.head?
  let title := titleElem.get "content"
  let ap ← parse_author_and_publisher html
  let source : MetaSourceInfo :=
    { id := aladin_id, description := DESCRIPTION, link := META_URL }
  let coverElem ← html.ogImage.head?
  let cover := pyOrStr (coverElem.get "content") generic_cover
  let description ← get_description html
  let isbnElem ← html.booksIsbn.head?
  let identifiers := [("isbn", isbnElem.get "content")]
  let dateElem ← html.datePublished.head?
  let publishedDate := dateElem.get "content"
  let raiting := raitingOf html.ratingAnchor
  return { id := id, title := title, authors := ap.1, url := url,
           source := source, cover := cover, description := description,
           identifiers := identifiers, publisher := ap.2,
           publishedDate := publishedDate, rating := raiting }

/-! ### Query normalizer (`_parse_query`, lines 98-104)

`urllib.parse.quote` is Python standard-library code, embedded here from
its documented behaviour: each byte of the token's UTF-8 encoding is kept
when it is in the unreserved set (letters, digits, `_.-~`) or in the
default `safe` set (`/`), and written `%XX` with uppercase hex digits
otherwise. -/

/-- UTF-8 encoding of one code point (what `str.encode("utf-8")` emits for
one character), one byte per entry. -/
def utf8EncodeChar (c : Char) : List Nat :=
  let n := c.toNat
  if n < 0x80 then [n]
  else if n < 0x800 then [0xC0 ||| (n >>> 6), 0x80 ||| (n &&& 0x3F)]
  else if n < 0x10000 then
    [0xE0 ||| (n >>> 12), 0x80 ||| ((n >>> 6) &&& 0x3F), 0x80 ||| (n &&& 0x3F)]
  else
    [0xF0 ||| (n >>> 18), 0x80 ||| ((n >>> 12) &&& 0x3F),
     0x80 ||| ((n >>> 6) &&& 0x3F), 0x80 ||| (n &&& 0x3F)]

/-- `t.encode("utf-8")`: the UTF-8 bytes of a string. -/
def utf8Bytes (t : String) : List Nat := (t.data.map utf8EncodeChar).flatten

/-- The characters `urllib.parse.quote` leaves unescaped: its
`always_safe` set plus the default `safe="/"`. -/
def quoteSafe : List Char :=
  "ABCDEFGHIJKLMNOPQRSTUVWXYZabcdefghijklmnopqrstuvwxyz0123456789_.-~/".data

def hexDigits : List Char := "0123456789ABCDEF".data

/-- One byte under `urllib.parse.quote`: itself when safe, `%XX` otherwise. -/
def quoteByte (b : Nat) : List Char :=
  if quoteSafe.any (fun c => c.toNat = b) then [Char.ofNat b]
  else ['%', hexDigits.getD (b / 16) '0', hexDigits.getD (b % 16) '0']

/-- `urllib.parse.quote(t.encode("utf-8"))` (line 101): percent-encoding
over the UTF-8 bytes of the token. -/
def quote (t : String) : String := ⟨((utf8Bytes t).map quoteByte).flatten⟩

/-- `Aladin._parse_query` (lines 98-104).  The shared tokenizer
`self.get_title_tokens(query, strip_joiners=False)` is inherited from
`cps.services.Metadata` (outside this module); it is passed in as the
function `tokenize`.  With at least one token the result is the
percent-encoded tokens joined with `+`; with none, the raw query is
returned verbatim. -/
def parse_query (tokenize : String → List String) (query : String) : String :=
  let title_tokens := tokenize query
  if !title_tokens.isEmpty then
    String.intercalate "+" (title_tokens.map quote)
  else query

/-! ### Search-ID extractor and the top-level `search` -/

def SEARCH_URL : String :=
  "https://www.aladin.co.kr/search/wsearchresult.aspx?SearchTarget=All&ViewRowCount=10&SearchWord="

/-- `Aladin._search_book_id` (lines 115-127), applied to the result of its
page fetch, projected to the `ITEM_XPATH` node list (`none` embeds
`_http_get` returning `None`; the code then returns `None`).  On success:
truncate the node list to the first 10 and keep, in order, the `itemid`
attribute of exactly those nodes carrying one (the comprehension's
`if 'itemid' in element.attrib` guard together with the `attrib['itemid']`
lookup is an optional attribute lookup). -/
def search_book_id (page? : Option (List Element)) : Option (List String) :=
  match page? with
  | none => none
  | some item_elements =>
    some ((item_elements.take 10).filterMap (fun e => e.get "itemid"))

/-- The external capabilities `Aladin.search` consumes, passed as data:
the shared tokenizer, and `_http_get` (lines 106-113) for the two page
kinds, each already projected to the node set the code reads.
`httpGetSearch q` stands for `_http_get(SEARCH_URL + q)` projected to
`ITEM_XPATH`; `httpGetDetail book_id` stands for
`_http_get(BOOK_URL + '?ItemId=' + book_id)`; `none` embeds any network or
parse failure. -/
structure Env where
  get_title_tokens : String → List String
  httpGetSearch : String → Option (List Element)
  httpGetDetail : String → Option DetailPage

/-- `Aladin.search` (lines 63-91).  `completion` is the order in which
`futures.as_completed` yields the submitted per-id tasks: a scheduler
rearrangement of `book_id_list`, supplied as a parameter because the
thread pool's completion order is nondeterministic (theorems about it
assume only that it is a permutation of the submitted ids).  When `active`
is false the whole body is skipped and the initial `val = list()` is
returned.  `if not book_id_list` (line 71) is true for both `None` and the
empty list, and the call then returns `None`.  Otherwise `val` keeps
exactly the non-`None` task results, in completion order (each
`future.result()` is the task's memoised return value, so testing it and
collecting it read the same value). -/
def search (env : Env) (active : Bool)
    (completion : List String → List String)
    (query generic_cover : String) : Option (List MetaRecord) :=
  if active then
    let q := parse_query env.get_title_tokens query
    match search_book_id (env.httpGetSearch q) with
    | none => none
    | some book_id_list =>
      if book_id_list.isEmpty then none
      else
        some ((completion book_id_list).filterMap
          (fun book_id =>
            fetch_book (env.httpGetDetail book_id) book_id generic_cover))
  else some []

/-- Holds when every required extraction of `_fetch_book` succeeds on the
page: the title, sub-title (authors/publisher) block, cover, description,
isbn and published-date nodes are all located, and the published-date node
carries a `content` attribute (its absence makes `None.strip()` raise
inside `_parse_author_and_publisher`). -/
def requiredFieldsLocated (html : DetailPage) : Bool :=
  !html.ogTitle.isEmpty && !html.sub2Title.isEmpty &&
  (match html.datePublished with
   | [] => false
   | e :: _ => (e.get "content").isSome) &&
  !html.ogImage.isEmpty && !html.ogDescription.isEmpty &&
  !html.booksIsbn.isEmpty

/-! ### Concrete pages used to instantiate the theorems -/

/-- A meta element whose `content` attribute is `v`. -/
def mkMeta (v : String) : Element := ⟨[("content", v)], none⟩

/-- The spec's example authors/publisher block. -/
def fragC3 : List String := ["Jane Doe", "(지은이)", "Acme Press", "2020-01-01"]

/-- A detail page with every required field present, the spec's example
authors/publisher block, and no rating anchor. -/
def pageC3 : DetailPage :=
  { ogTitle := [mkMeta "T"]
    sub2Title := [fragC3]
    ogImage := [mkMeta "http://img"]
    ogDescription := [mkMeta "D"]
    booksIsbn := [mkMeta "9780000000000"]
    datePublished := [mkMeta "2020-01-01"]
    ratingAnchor := [] }

/-- `pageC3` with a rating anchor present whose text is `"8.5"`. -/
def pageRated : DetailPage :=
  { pageC3 with ratingAnchor := [⟨[], some "8.5"⟩] }

/-- `pageC3` with the `og:image` meta tag absent. -/
def pageNoCover : DetailPage := { pageC3 with ogImage := [] }

/-- `pageC3` with the `og:image` tag present but no `content` attribute. -/
def pageBlankCover : DetailPage := { pageC3 with ogImage := [⟨[], none⟩] }

/-- `pageC3` with the `og:title` meta tag absent. -/
def pageNoTitle : DetailPage := { pageC3 with ogTitle := [] }

/-- An authors/publisher block in which no fragment after the marker
matches the date string. -/
def pageNoDateMatch : DetailPage :=
  { pageC3 with sub2Title := [["Jane Doe", "(지은이)", "Acme Press"]] }

/-- A block with whitespace around every fragment: the publisher fragment
is located by trimmed comparison but returned raw. -/
def pageC10ws : DetailPage :=
  { pageC3 with
      sub2Title := [["  A  ", "(지은이)", "  Acme Press  ", " 2020-01-01 "]] }

/-- A block in which the fragment right after the marker matches the date
string, so `sub[i-1]` is the marker fragment itself. -/
def pageC10marker : DetailPage :=
  { pageC3 with sub2Title := [["A", " (지은이) ", "2020-01-01", "X"]] }

/-- Search-results item nodes: two carrying an `itemid` attribute and one
(an ad box) without. -/
def searchItems : List Element :=
  [⟨[("itemid", "1")], none⟩, ⟨[], some "ad"⟩, ⟨[("itemid", "2")], none⟩]

/-- Environment whose search-page fetch fails. -/
def envFetchFail : Env :=
  { get_title_tokens := fun _ => []
    httpGetSearch := fun _ => none
    httpGetDetail := fun _ => none }

/-- Environment whose search page parses but contains no result items. -/
def envZeroMatch : Env :=
  { get_title_tokens := fun _ => []
    httpGetSearch := fun _ => some []
    httpGetDetail := fun _ => none }

/-- Environment returning the two ids "1" and "2", of which only id "2"
has a fetchable detail page. -/
def envTwoIds : Env :=
  { get_title_tokens := fun _ => []
    httpGetSearch := fun _ => some searchItems
    httpGetDetail := fun book_id => if book_id = "2" then some pageC3 else none }

end Aladin

namespace Aladin

/-! ## Theorems -/

/-- Helper: when no fragment of the walked list has trimmed text equal to
the date string, Phase B runs off the end and the publisher is `""`. -/
lemma publisherPhase_eq_empty (ds prev : String) (l : List String)
    (h : ∀ x ∈ l, pyStrip x ≠ ds) : publisherPhase ds prev l = "" := by
  induction l generalizing prev with
  | nil => rfl
  | cons x rest ih =>
    have hx : pyStrip x ≠ ds := h x (List.mem_cons_self x rest)
    simp only [publisherPhase, if_neg hx]
    exact ih x (fun y hy => h y (List.mem_cons_of_mem x hy))

/-- C3: on the fragment sequence `["Jane Doe", "(지은이)", "Acme Press",
"2020-01-01"]` with published-date string `"2020-01-01"`, the heuristic
yields authors `["Jane Doe"]` and publisher `"Acme Press"`; and for every
page whose fragment sequence has no post-marker fragment with trimmed text
equal to the (trimmed) date string, the returned publisher is the empty
string. -/
theorem C3_author_publisher_heuristic :
    parse_author_and_publisher pageC3 = some (["Jane Doe"], "Acme Press") ∧
    (∀ (html : DetailPage) (sub : List String) (de : Element) (dc : String),
      html.sub2Title.head? = some sub →
      html.datePublished.head? = some de →
      de.get "content" = some dc →
      (∀ x ∈ (authorPhase sub).2.2, pyStrip x ≠ pyStrip dc) →
      parse_author_and_publisher html = some ((authorPhase sub).1, "")) := by
  constructor
  · decide
  · intro html sub de dc h1 h2 h3 h4
    simp only [parse_author_and_publisher, h1, h2, h3, Option.bind_eq_bind,
      Option.some_bind]
    rcases hap : authorPhase sub with ⟨authors, marker?, rest⟩
    rcases marker? with _ | m
    · simp [hap]
    · have : publisherPhase (pyStrip dc) m rest = "" := by
        refine publisherPhase_eq_empty _ _ _ (fun x hx => h4 x ?_)
        rw [hap]
        exact hx
      simp [hap, this]

/-- Witness for C3: the universal part applied to a page whose block has
no fragment matching the date string. -/
theorem C3_witness :
    parse_author_and_publisher pageNoDateMatch = some (["Jane Doe"], "") :=
  C3_author_publisher_heuristic.2 pageNoDateMatch
    ["Jane Doe", "(지은이)", "Acme Press"] (mkMeta "2020-01-01") "2020-01-01"
    rfl rfl rfl (by decide)

/-- C10: the publisher is returned as the raw, untrimmed fragment
preceding the matched one — Phase B compares trimmed text but returns
`sub[i-1]` verbatim — and when the very first post-marker fragment
matches the date string, that `sub[i-1]` is the marker fragment itself.
Concretely: a block with whitespace-padded fragments yields trimmed
authors but an untrimmed publisher, and a block whose first post-marker
fragment is the date yields the raw marker fragment as publisher. -/
theorem C10_publisher_untrimmed :
    (∀ (ds prev x : String) (rest : List String),
      pyStrip x = ds → publisherPhase ds prev (x :: rest) = prev) ∧
    parse_author_and_publisher pageC10ws = some (["A"], "  Acme Press  ") ∧
    parse_author_and_publisher pageC10marker = some (["A"], " (지은이) ") := by
  refine ⟨?_, by decide, by decide⟩
  intro ds prev x rest h
  simp [publisherPhase, h]

/-- Witness for C10: the Phase B head-match law at concrete values. -/
theorem C10_witness :
    publisherPhase "d" "  P  " [" d ", "tail"] = "  P  " :=
  C10_publisher_untrimmed.1 "d" "  P  " " d " ["tail"] (by decide)

set_option maxHeartbeats 1600000 in
/-- Helper: evaluation of `fetch_book` on a fetched page, as one equation
making the all-required-or-drop structure explicit. -/
lemma fetch_book_eq (html : DetailPage) (id gc : String) :
    fetch_book (some html) id gc =
      match html.ogTitle.head?, parse_author_and_publisher html,
          html.ogImage.head?, html.ogDescription.head?,
          html.booksIsbn.head?, html.datePublished.head? with
      | some te, some ap, some ce, some de, some ie, some pe =>
        some { id := id
               title := te.get "content"
               authors := ap.1
               url := BOOK_URL ++ "?ItemId=" ++ id
               source := ⟨aladin_id, DESCRIPTION, META_URL⟩
               cover := pyOrStr (ce.get "content") gc
               description := de.get "content"
               identifiers := [("isbn", ie.get "content")]
               publisher := ap.2
               publishedDate := pe.get "content"
               rating := raitingOf html.ratingAnchor }
      | _, _, _, _, _, _ => none := by
  rcases h1 : html.ogTitle.head? with _ | te <;>
    rcases h2 : parse_author_and_publisher html with _ | ap <;>
    rcases h3 : html.ogImage.head? with _ | ce <;>
    rcases h4 : html.ogDescription.head? with _ | de <;>
    rcases h5 : html.booksIsbn.head? with _ | ie <;>
    rcases h6 : html.datePublished.head? with _ | pe <;>
    simp [fetch_book, get_description, h1, h2, h3, h4, h5, h6]

set_option maxHeartbeats 1600000 in
/-- Helper: `fetch_book` emits a record exactly when every required field
is located on the page. -/
lemma fetch_book_isSome (html : DetailPage) (id gc : String) :
    (fetch_book (some html) id gc).isSome = requiredFieldsLocated html := by
  rcases html with ⟨t, s, im, d, ib, dp, ra⟩
  rcases t with _ | ⟨te, t⟩ <;> rcases s with _ | ⟨sf, s⟩ <;>
    rcases im with _ | ⟨ime, im⟩ <;> rcases d with _ | ⟨de, d⟩ <;>
    rcases ib with _ | ⟨ibe, ib⟩ <;> rcases dp with _ | ⟨dpe, dp⟩ <;>
    simp [fetch_book, requiredFieldsLocated, parse_author_and_publisher,
      get_description] <;>
    rcases hg : dpe.get "content" with _ | c <;> simp [hg]

/-- Helper: the cover of every emitted record is the page's og:image
content passed through the `or generic_cover` fallback. -/
lemma fetch_book_cover (html : DetailPage) (id gc : String) (r : MetaRecord)
    (hf : fetch_book (some html) id gc = some r) :
    ∃ ce, html.ogImage.head? = some ce ∧
      r.cover = pyOrStr (ce.get "content") gc := by
  rw [fetch_book_eq] at hf
  split at hf
  · rename_i te ap ce de ie pe h1 h2 h3 h4 h5 h6
    refine ⟨ce, h3, ?_⟩
    injection hf with h
    rw [← h]
  · exact Option.noConfusion hf

/-- C4: a record is emitted exactly when title, the authors/publisher
block, the cover node, description, isbn and published date (with its
content attribute) were all located; a failed page fetch yields nothing,
and in particular a page missing the og:title meta tag yields nothing —
never a partial record. -/
theorem C4_all_required_or_drop :
    (∀ (html : DetailPage) (id gc : String),
      (fetch_book (some html) id gc).isSome = requiredFieldsLocated html) ∧
    (∀ id gc : String, fetch_book none id gc = none) ∧
    (∀ (html : DetailPage) (id gc : String), html.ogTitle = [] →
      fetch_book (some html) id gc = none) := by
  refine ⟨fetch_book_isSome, fun id gc => rfl, fun html id gc ht => ?_⟩
  have h := fetch_book_isSome html id gc
  simp [requiredFieldsLocated, ht] at h
  cases o : fetch_book (some html) id gc with
  | none => rfl
  | some r => rw [o] at h; simp at h

/-- Witness for C4: a page missing the og:title meta tag is dropped. -/
theorem C4_witness : fetch_book (some pageNoTitle) "7" "GC" = none :=
  C4_all_required_or_drop.2.2 pageNoTitle "7" "GC" rfl

/-- C2 counterexample: a detail page with every required field present but
the og:image meta tag absent is dropped (`xpath(...)[0]` raises
`IndexError`, swallowed by the broad handler) instead of being emitted
with the generic cover; the identical page with the tag present is
emitted.  This refutes the claim that a missing cover never drops the
item. -/
theorem C2_counterexample :
    fetch_book (some pageNoCover) "7" "GC" = none ∧
    (fetch_book (some pageC3) "7" "GC").isSome = true := by
  exact ⟨by decide, by decide⟩

/-- C2 amended: when the og:image tag is present but its `content`
attribute is missing or empty, the emitted record's cover is exactly the
caller-supplied generic cover; when the tag is absent entirely, no record
is emitted at all. -/
theorem C2_cover_fallback :
    (∀ (html : DetailPage) (id gc : String) (e : Element) (r : MetaRecord),
      html.ogImage.head? = some e →
      (e.get "content" = none ∨ e.get "content" = some "") →
      fetch_book (some html) id gc = some r → r.cover = gc) ∧
    (∀ (html : DetailPage) (id gc : String),
      html.ogImage = [] → fetch_book (some html) id gc = none) := by
  constructor
  · intro html id gc e r he hc hf
    obtain ⟨ce, h3, hcov⟩ := fetch_book_cover html id gc r hf
    rw [he] at h3
    injection h3 with h3
    subst h3
    rcases hc with hc | hc <;> rw [hc] at hcov <;> simpa [pyOrStr] using hcov
  · intro html id gc him
    have h := fetch_book_isSome html id gc
    simp [requiredFieldsLocated, him] at h
    cases o : fetch_book (some html) id gc with
    | none => rfl
    | some r => rw [o] at h; simp at h

/-- Witness for C2: the cover-fallback law applied to a page whose
og:image tag has no content attribute, and the drop law applied to a page
with no og:image tag. -/
theorem C2_witness :
    (fetch_book (some pageBlankCover) "7" "GC").map MetaRecord.cover
      = some "GC" ∧
    fetch_book (some pageNoCover) "7" "GC2" = none := by
  constructor
  · cases o : fetch_book (some pageBlankCover) "7" "GC" with
    | none => exact absurd o (by decide)
    | some r =>
      have hc := C2_cover_fallback.1 pageBlankCover "7" "GC" ⟨[], none⟩ r rfl
        (Or.inl rfl) o
      simp [hc]
  · exact C2_cover_fallback.2 pageNoCover "7" "GC2" rfl

/-- C1 (code bug): on a detail page whose rating anchor is present with
text "8.5", the emitted record's rating is 0, not the
`int(8.5/2 + 0.5) = 4` the spec's scaling formula yields: line 152
applies `float(...)` to the xpath node list itself (a misplaced closing
parenthesis), so the rating computation raises `TypeError` on every page
and the `except Exception` handler substitutes 0.  A page with no rating
element also gets rating 0; neither case drops the item. -/
theorem C1_rating_always_zero :
    (fetch_book (some pageRated) "9788950963262" "GC").map MetaRecord.rating
      = some 0 ∧
    specRatingScale (17 / 2) = 4 ∧
    (∀ nodes : List Element, raitingOf nodes = 0) ∧
    (fetch_book (some pageC3) "9788950963262" "GC").map MetaRecord.rating
      = some 0 := by
  refine ⟨by decide, ?_, fun _ => rfl, by decide⟩
  norm_num [specRatingScale]

/-- C5: a failed search-page fetch makes `_search_book_id` return `None`,
which is a different value from the `some []` of a parsed page with zero
matches; yet at the public interface both make `search` return `None`
(`if not book_id_list` merges them), so a failed and a zero-match search
are indistinguishable to the caller. -/
theorem C5_failed_vs_empty_search :
    search_book_id none = none ∧
    search_book_id (some []) = some [] ∧
    search_book_id (some []) ≠ none ∧
    (∀ (env : Env) (completion : List String → List String) (q gc : String),
      env.httpGetSearch (parse_query env.get_title_tokens q) = none →
      search env true completion q gc = none) ∧
    (∀ (env : Env) (completion : List String → List String) (q gc : String),
      search_book_id (env.httpGetSearch (parse_query env.get_title_tokens q))
        = some [] →
      search env true completion q gc = none) := by
  refine ⟨rfl, rfl, by simp [search_book_id], ?_, ?_⟩
  · intro env completion q gc h
    simp [search, h, search_book_id]
  · intro env completion q gc h
    simp [search, h]

/-- Witness for C5: a failing fetch and a zero-match page both surface as
`None` from the top-level search. -/
theorem C5_witness :
    search envFetchFail true id "q" "gc" = none ∧
    search envZeroMatch true id "q" "gc" = none :=
  ⟨C5_failed_vs_empty_search.2.2.2.1 envFetchFail id "q" "gc" rfl,
   C5_failed_vs_empty_search.2.2.2.2 envZeroMatch id "q" "gc" rfl⟩

/-- C6: whenever tokenization yields at least one token, `_parse_query`
returns the tokens percent-encoded over their UTF-8 bytes and joined with
`+`; with zero tokens it returns the raw query verbatim. -/
theorem C6_query_normalization :
    (∀ (tokenize : String → List String) (query : String),
      tokenize query ≠ [] →
      parse_query tokenize query
        = String.intercalate "+" ((tokenize query).map quote)) ∧
    (∀ (tokenize : String → List String) (query : String),
      tokenize query = [] → parse_query tokenize query = query) := by
  constructor
  · intro tokenize query h
    rcases hq : tokenize query with _ | ⟨t, ts⟩
    · exact absurd hq h
    · simp [parse_query, hq]
  · intro tokenize query h
    simp [parse_query, h]

/-- Witness for C6: a Korean token is percent-encoded over its three-byte
UTF-8 characters, an ASCII token passes through, the join uses `+`; a
tokenizer yielding nothing leaves the raw query untouched. -/
theorem C6_witness :
    parse_query (fun _ => ["한글", "book"]) "한글 book"
      = "%ED%95%9C%EA%B8%80+book" ∧
    parse_query (fun _ => []) " , " = " , " :=
  ⟨(C6_query_normalization.1 (fun _ => ["한글", "book"]) "한글 book"
      (by decide)).trans (by decide),
   C6_query_normalization.2 (fun _ => []) " , " rfl⟩

/-- C7: on a successfully fetched search page, `_search_book_id` returns
at most 10 ids; the returned ids are, in input order, a sublist of the
`itemid` attributes of all item nodes (nodes lacking the attribute are
skipped), and each id is the `itemid` of one of the first 10 nodes. -/
theorem C7_search_id_extraction :
    ∀ (items : List Element) (ids : List String),
      search_book_id (some items) = some ids →
      ids.length ≤ 10 ∧
      ids.Sublist (items.filterMap (fun e => e.get "itemid")) ∧
      ∀ i ∈ ids, ∃ e ∈ items.take 10, e.get "itemid" = some i := by
  intro items ids h
  simp only [search_book_id, Option.some.injEq] at h
  subst h
  refine ⟨?_, ?_, ?_⟩
  · calc ((items.take 10).filterMap fun e => e.get "itemid").length
        ≤ (items.take 10).length := List.length_filterMap_le _ _
      _ ≤ 10 := by simp [List.length_take_le]
  · exact (List.take_sublist 10 items).filterMap _
  · intro i hi
    obtain ⟨e, he, hg⟩ := List.mem_filterMap.mp hi
    exact ⟨e, he, hg⟩

/-- Witness for C7: extraction over three nodes of which the middle one
(an ad box) lacks the `itemid` attribute. -/
theorem C7_witness :
    (["1", "2"] : List String).length ≤ 10 ∧
    (["1", "2"] : List String).Sublist
      (searchItems.filterMap (fun e => e.get "itemid")) ∧
    ∀ i ∈ (["1", "2"] : List String),
      ∃ e ∈ searchItems.take 10, e.get "itemid" = some i :=
  C7_search_id_extraction searchItems ["1", "2"] (by decide)

/-- Helper: the length of a `filterMap` is the number of elements on which
the function succeeds. -/
lemma length_filterMap_eq_countP {α β : Type} (f : α → Option β)
    (l : List α) :
    (l.filterMap f).length = l.countP (fun a => (f a).isSome) := by
  induction l with
  | nil => rfl
  | cons a l ih =>
    cases h : f a <;> simp [List.filterMap_cons, h, List.countP_cons, ih]

/-- Helper: successes and failures of `f` partition the list. -/
lemma countP_isSome_add_isNone {α β : Type} (f : α → Option β)
    (l : List α) :
    l.countP (fun a => (f a).isSome)
      + l.countP (fun a => (f a).isNone) = l.length := by
  induction l with
  | nil => rfl
  | cons a l ih => cases h : f a <;> simp [List.countP_cons, h] <;> omega

/-- C8: for a non-empty id list, whatever completion order the pool
produces (any permutation of the ids), the orchestrator returns exactly
the records of ids whose fetch succeeded: failures are filtered out, the
output size is at most the input count and equals it minus the number of
failed ids, and every returned record comes from some input id. -/
theorem C8_orchestrator_collects_successes (env : Env)
    (completion : List String → List String) (q gc : String)
    (ids : List String)
    (hids : search_book_id
      (env.httpGetSearch (parse_query env.get_title_tokens q)) = some ids)
    (hne : ids ≠ [])
    (hperm : (completion ids).Perm ids) :
    ∃ val, search env true completion q gc = some val ∧
      val.length ≤ ids.length ∧
      val.length = ids.length - ids.countP
        (fun b => (fetch_book (env.httpGetDetail b) b gc).isNone) ∧
      ∀ r ∈ val, ∃ b ∈ ids,
        fetch_book (env.httpGetDetail b) b gc = some r := by
  have hie : ids.isEmpty = false := by
    cases ids with
    | nil => exact absurd rfl hne
    | cons a l => rfl
  refine ⟨(completion ids).filterMap
      (fun b => fetch_book (env.httpGetDetail b) b gc), ?_, ?_, ?_, ?_⟩
  · simp [search, hids, hie]
  · rw [length_filterMap_eq_countP,
      hperm.countP_eq (fun b => (fetch_book (env.httpGetDetail b) b gc).isSome)]
    exact List.countP_le_length _
  · rw [length_filterMap_eq_countP,
      hperm.countP_eq (fun b => (fetch_book (env.httpGetDetail b) b gc).isSome)]
    have := countP_isSome_add_isNone
      (fun b => fetch_book (env.httpGetDetail b) b gc) ids
    omega
  · intro r hr
    obtain ⟨b, hb, hfb⟩ := List.mem_filterMap.mp hr
    exact ⟨b, hperm.mem_iff.mp hb, hfb⟩

/-- Witness for C8: two ids completed in reverse order, of which only one
detail fetch succeeds: the output has exactly one record. -/
theorem C8_witness :
    ∃ val, search envTwoIds true List.reverse "q" "gc" = some val ∧
      val.length ≤ (["1", "2"] : List String).length ∧
      val.length = (["1", "2"] : List String).length
        - (["1", "2"] : List String).countP
            (fun b => (fetch_book (envTwoIds.httpGetDetail b) b "gc").isNone) ∧
      ∀ r ∈ val, ∃ b ∈ (["1", "2"] : List String),
        fetch_book (envTwoIds.httpGetDetail b) b "gc" = some r :=
  C8_orchestrator_collects_successes envTwoIds List.reverse "q" "gc"
    ["1", "2"] (by decide) (by decide) (List.reverse_perm _)

/-- C9: with the provider inactive, `search` returns the empty list — not
`None` — and the result does not depend on the tokenizer, the network, the
completion order or the query: no normalization, search fetch or item
fetch can influence it.  The shape `some []` is distinct from the `none`
of a failed or zero-match active search. -/
theorem C9_inactive_empty_list :
    (∀ (env : Env) (completion : List String → List String) (q gc : String),
      search env false completion q gc = some []) ∧
    (∀ (env : Env) (completion : List String → List String) (q gc : String),
      search env false completion q gc ≠ none) ∧
    (∀ (env env2 : Env)
        (completion completion2 : List String → List String) (q gc : String),
      search env false completion q gc
        = search env2 false completion2 q gc) := by
  refine ⟨fun env completion q gc => rfl, ?_, fun env env2 c c2 q gc => rfl⟩
  intro env completion q gc
  simp [search]

end Aladin
